import Mathlib

/-!
Verification of the authentication-orchestration core of the
playwright-training repository against its specification.

The definitions below are a shallow embedding of the Python source:
data models from src/models.py, the authenticate flows of
src/auth/base.py, the browser-substrate fallback of
src/browser/manager.py, the bounded polling loops of the manual
CAPTCHA solver and manual 2FA handler, and the Slack token-exchange
helper of src/auth/oauth_helper.py.  Page-driving code (Playwright
calls) is abstracted: each phase is a function producing a list of
observable method events plus an `Except`-typed outcome, mirroring the
fact that any Python phase can either return a value or raise.
-/

/-- Python exception payload, reduced to its string form (the code only
ever uses `str(e)`). -/
abbrev PyErr := String

/-- Supported providers (src/models.py `AuthProvider`): only Slack is
registered. -/
inductive AuthProvider
  | slack
deriving DecidableEq

/-- Authentication methods (src/auth/base.py `AuthMethod`). -/
inductive AuthMethod
  | password
  | oauth2
  | hybrid
  | sso
  | apiKey
deriving DecidableEq

/-- Mirrors the Python enum conversion `AuthMethod(value)`: `none`
models the `ValueError` raised on an unknown value. -/
def authMethodOfString : String → Option AuthMethod
  | "password" => some AuthMethod.password
  | "oauth2" => some AuthMethod.oauth2
  | "hybrid" => some AuthMethod.hybrid
  | "sso" => some AuthMethod.sso
  | "api_key" => some AuthMethod.apiKey
  | _ => none

/-- Browser session cookie (src/models.py `SessionCookie`). -/
structure SessionCookie where
  name : String
  value : String
  domain : String
  path : String := "/"
  secure : Bool := false
  httpOnly : Bool := false
deriving DecidableEq

/-- OAuth tokens (src/models.py `OAuthTokens`).  Instants and durations
are modelled as integer seconds. -/
structure OAuthTokens where
  accessToken : Option String := none
  refreshToken : Option String := none
  tokenType : Option String := none
  expiresIn : Option Int := none
  expiresAt : Option Int := none
  scope : Option String := none
  teamId : Option String := none
  teamName : Option String := none
  userId : Option String := none
  botUserId : Option String := none
  appId : Option String := none
deriving DecidableEq

/-- Login request (src/models.py `LoginRequest`).  Fields keep the
declaration order of the pydantic model; `provider`, `email` and
`password` are declared without a default there and are therefore
required, every other field has a default. -/
structure LoginRequest where
  provider : AuthProvider
  email : String
  password : String
  headless : Bool := true
  authMode : String := "password"
  clientId : Option String := none
  clientSecret : Option String := none
  redirectUri : Option String := none
  scopes : Option (List String) := none
  state : Option String := none
  otpCode : Option String := none
  totpSecret : Option String := none
  sessionReuse : Bool := true
  sessionTimeoutMinutes : Option Int := none
  userAgent : Option String := none
  proxyConfig : Option (List (String × String)) := none
  stealthMode : Option String := none
  advancedStealth : Option Bool := none
  solveCaptchas : Option Bool := none
  captchaImageSelector : Option String := none
  captchaInputSelector : Option String := none
  useProxies : Option Bool := none
  workspaceUrl : Option String := none
  teamId : Option String := none
deriving DecidableEq

/-- Mirrors pydantic construction of `LoginRequest` from an inbound
payload (src/models.py lines 17-56): a field declared without a default
(`provider`, `email`, `password`) is required, so omitting it is a
validation error; every other field defaults. -/
def mkLoginRequest (provider : Option AuthProvider) (email : Option String)
    (password : Option String) : Except String LoginRequest :=
  match provider, email, password with
  | some p, some e, some pw => Except.ok { provider := p, email := e, password := pw }
  | none, _, _ => Except.error "provider: field required"
  | _, none, _ => Except.error "email: field required"
  | _, _, none => Except.error "password: field required"

/-- Result tuple of `authenticate` (src/auth/base.py): success flag,
cookie list, human-readable message, optional tokens, in the order of
the Python tuple. -/
structure AuthResult where
  success : Bool
  cookies : List SessionCookie
  message : String
  tokens : Option OAuthTokens
deriving DecidableEq

/-- Python truthiness of an `Optional[str]`: `None` and `""` are falsy. -/
def optFalsy : Option String → Bool
  | none => true
  | some s => s.isEmpty

/-- Python truthiness of an `Optional[bool]` JSON field. -/
def truthyOptBool : Option Bool → Bool
  | some b => b
  | none => false

/-- Observable events emitted from inside a phase method: a browser
interaction (navigation, credential entry, clicking, the OAuth2 flow)
or the invocation of a CAPTCHA solver / 2FA handler from a chain. -/
inductive MEv
  | pageInteraction (desc : String)
  | solverInvoked (name : String)
deriving DecidableEq

/-- Names of the overridable phase methods called by `authenticate`. -/
inductive PhaseName
  | oauth2Login
  | login
  | handleCaptcha
  | handle2fa
  | isSuccess
  | extractCookies
  | extractOauthTokens
deriving DecidableEq

/-- Trace event of an authentication attempt: either the orchestrator
calling a phase method, or an event emitted inside a method. -/
inductive Ev
  | call (p : PhaseName)
  | m (e : MEv)
deriving DecidableEq

/-- Outcome of one phase-method call: the events it emitted and its
Python result, where `Except.error` models a raised exception. -/
abbrev PhaseOut (α : Type) := List MEv × Except PyErr α

/-- Trace contributed by one phase-method call. -/
def phaseEvents (p : PhaseName) (t : List MEv) : List Ev :=
  Ev.call p :: t.map Ev.m

/-- An authentication strategy, as the record of the phase methods that
`authenticate` (src/auth/base.py) dispatches to.  `P` is the abstract
page-handle type. -/
structure Strategy (P : Type) where
  login : P → LoginRequest → PhaseOut Unit
  oauth2Login : P → LoginRequest → PhaseOut (Option OAuthTokens)
  handleCaptcha : P → PhaseOut Bool
  handle2fa : P → LoginRequest → PhaseOut Bool
  isSuccess : P → PhaseOut Bool
  extractCookies : P → PhaseOut (List SessionCookie)
  extractOauthTokens : P → LoginRequest → PhaseOut (Option OAuthTokens)

/-- Inherited default `AuthStrategy.handle_captcha` (src/auth/base.py
lines 127-130): unconditionally `True`, touching nothing on the page. -/
def defaultHandleCaptcha {P : Type} : P → PhaseOut Bool :=
  fun _ => ([], Except.ok true)

/-- Inherited default `AuthStrategy.handle_2fa` (src/auth/base.py lines
132-135): unconditionally `True`, touching nothing on the page. -/
def defaultHandle2fa {P : Type} : P → LoginRequest → PhaseOut Bool :=
  fun _ _ => ([], Except.ok true)

/-- Inherited default `AuthStrategy.oauth2_login` (src/auth/base.py
lines 137-140): logs and returns `None`, touching nothing on the page. -/
def defaultOauth2Login {P : Type} : P → LoginRequest → PhaseOut (Option OAuthTokens) :=
  fun _ _ => ([], Except.ok none)

/-- Inherited default `AuthStrategy.extract_oauth_tokens` (src/auth/base.py
lines 142-145): logs and returns `None`. -/
def defaultExtractOauthTokens {P : Type} : P → LoginRequest → PhaseOut (Option OAuthTokens) :=
  fun _ _ => ([], Except.ok none)

/-- Steps 2-7 shared verbatim by `AuthStrategy.authenticate` (password
tail, src/auth/base.py lines 165-191) and
`HybridBaseStrategy.authenticate` (password tail, lines 387-410): login,
CAPTCHA, 2FA, success check, cookie extraction, and - in the base class
only (`extractTokens = true`) - OAuth token extraction.  `pre` is the
message prefix of the catch-all except branch, `successMsg` the success
message, `tr0` the trace accumulated before this tail. -/
def passwordPhases {P : Type} (s : Strategy P) (page : P) (req : LoginRequest)
    (pre successMsg : String) (extractTokens : Bool) (tr0 : List Ev) :
    AuthResult × List Ev :=
  match s.login page req with
  | (t1, Except.error e) =>
      (⟨false, [], pre ++ e, none⟩, tr0 ++ phaseEvents PhaseName.login t1)
  | (t1, Except.ok _) =>
    match s.handleCaptcha page with
    | (t2, Except.error e) =>
        (⟨false, [], pre ++ e, none⟩,
          tr0 ++ phaseEvents PhaseName.login t1 ++ phaseEvents PhaseName.handleCaptcha t2)
    | (t2, Except.ok false) =>
        (⟨false, [], "CAPTCHA could not be solved", none⟩,
          tr0 ++ phaseEvents PhaseName.login t1 ++ phaseEvents PhaseName.handleCaptcha t2)
    | (t2, Except.ok true) =>
      match s.handle2fa page req with
      | (t3, Except.error e) =>
          (⟨false, [], pre ++ e, none⟩,
            tr0 ++ phaseEvents PhaseName.login t1 ++ phaseEvents PhaseName.handleCaptcha t2
              ++ phaseEvents PhaseName.handle2fa t3)
      | (t3, Except.ok false) =>
          (⟨false, [], "2FA could not be completed", none⟩,
            tr0 ++ phaseEvents PhaseName.login t1 ++ phaseEvents PhaseName.handleCaptcha t2
              ++ phaseEvents PhaseName.handle2fa t3)
      | (t3, Except.ok true) =>
        match s.isSuccess page with
        | (t4, Except.error e) =>
            (⟨false, [], pre ++ e, none⟩,
              tr0 ++ phaseEvents PhaseName.login t1 ++ phaseEvents PhaseName.handleCaptcha t2
                ++ phaseEvents PhaseName.handle2fa t3 ++ phaseEvents PhaseName.isSuccess t4)
        | (t4, Except.ok false) =>
            (⟨false, [], "Login failed - invalid credentials or other error", none⟩,
              tr0 ++ phaseEvents PhaseName.login t1 ++ phaseEvents PhaseName.handleCaptcha t2
                ++ phaseEvents PhaseName.handle2fa t3 ++ phaseEvents PhaseName.isSuccess t4)
        | (t4, Except.ok true) =>
          match s.extractCookies page with
          | (t5, Except.error e) =>
              (⟨false, [], pre ++ e, none⟩,
                tr0 ++ phaseEvents PhaseName.login t1 ++ phaseEvents PhaseName.handleCaptcha t2
                  ++ phaseEvents PhaseName.handle2fa t3 ++ phaseEvents PhaseName.isSuccess t4
                  ++ phaseEvents PhaseName.extractCookies t5)
          | (t5, Except.ok cookies) =>
            if cookies.isEmpty then
              (⟨false, [], "No valid session cookies found", none⟩,
                tr0 ++ phaseEvents PhaseName.login t1 ++ phaseEvents PhaseName.handleCaptcha t2
                  ++ phaseEvents PhaseName.handle2fa t3 ++ phaseEvents PhaseName.isSuccess t4
                  ++ phaseEvents PhaseName.extractCookies t5)
            else if extractTokens then
              match s.extractOauthTokens page req with
              | (t6, Except.error e) =>
                  (⟨false, [], pre ++ e, none⟩,
                    tr0 ++ phaseEvents PhaseName.login t1 ++ phaseEvents PhaseName.handleCaptcha t2
                      ++ phaseEvents PhaseName.handle2fa t3 ++ phaseEvents PhaseName.isSuccess t4
                      ++ phaseEvents PhaseName.extractCookies t5
                      ++ phaseEvents PhaseName.extractOauthTokens t6)
              | (t6, Except.ok tok) =>
                  (⟨true, cookies, successMsg, tok⟩,
                    tr0 ++ phaseEvents PhaseName.login t1 ++ phaseEvents PhaseName.handleCaptcha t2
                      ++ phaseEvents PhaseName.handle2fa t3 ++ phaseEvents PhaseName.isSuccess t4
                      ++ phaseEvents PhaseName.extractCookies t5
                      ++ phaseEvents PhaseName.extractOauthTokens t6)
            else
              (⟨true, cookies, successMsg, none⟩,
                tr0 ++ phaseEvents PhaseName.login t1 ++ phaseEvents PhaseName.handleCaptcha t2
                  ++ phaseEvents PhaseName.handle2fa t3 ++ phaseEvents PhaseName.isSuccess t4
                  ++ phaseEvents PhaseName.extractCookies t5)

/-- Mirrors `AuthStrategy.authenticate` (src/auth/base.py lines
147-191).  Mode `oauth2` delegates to `oauth2_login` only; mode
`hybrid` tries `oauth2_login` once and falls through to the password
tail when it returns `None`; every other mode goes straight to the
password tail.  The catch-all except branch turns a raised `e` into the
structured failure `"Authentication error: " ++ e`. -/
def baseAuthenticate {P : Type} (s : Strategy P) (page : P) (req : LoginRequest) :
    AuthResult × List Ev :=
  if req.authMode = "oauth2" then
    match s.oauth2Login page req with
    | (t, Except.error e) =>
        (⟨false, [], "Authentication error: " ++ e, none⟩, phaseEvents PhaseName.oauth2Login t)
    | (t, Except.ok none) =>
        (⟨false, [], "OAuth2 authentication failed", none⟩, phaseEvents PhaseName.oauth2Login t)
    | (t, Except.ok (some tok)) =>
        (⟨true, [], "OAuth2 authentication successful", some tok⟩,
          phaseEvents PhaseName.oauth2Login t)
  else if req.authMode = "hybrid" then
    match s.oauth2Login page req with
    | (t, Except.error e) =>
        (⟨false, [], "Authentication error: " ++ e, none⟩, phaseEvents PhaseName.oauth2Login t)
    | (t, Except.ok (some tok)) =>
        (⟨true, [], "Hybrid OAuth2 authentication successful", some tok⟩,
          phaseEvents PhaseName.oauth2Login t)
    | (t, Except.ok none) =>
        passwordPhases s page req "Authentication error: " "Login successful" true
          (phaseEvents PhaseName.oauth2Login t)
  else
    passwordPhases s page req "Authentication error: " "Login successful" true []

/-- Fields required for OAuth2 that are missing from the request, in
the order of `get_required_fields(AuthMethod.OAUTH2)` (src/auth/base.py
lines 52-61); `getattr(request, field, None)` falsiness admits both
`None` and the empty string. -/
def oauth2MissingFields (req : LoginRequest) : List String :=
  (if optFalsy req.clientId then ["client_id"] else []) ++
    (if optFalsy req.clientSecret then ["client_secret"] else []) ++
      (if optFalsy req.redirectUri then ["redirect_uri"] else [])

/-- Mirrors `OAuth2BaseStrategy.authenticate` (src/auth/base.py lines
278-305): required-field validation happens before `oauth2_login` is
called, so a missing field returns the configuration failure with an
empty trace. -/
def oauth2BaseAuthenticate {P : Type} (s : Strategy P) (page : P) (req : LoginRequest) :
    AuthResult × List Ev :=
  if (oauth2MissingFields req).isEmpty then
    match s.oauth2Login page req with
    | (t, Except.error e) =>
        (⟨false, [], "OAuth2 authentication error: " ++ e, none⟩,
          phaseEvents PhaseName.oauth2Login t)
    | (t, Except.ok (some tk)) =>
        if optFalsy tk.accessToken then
          (⟨false, [], "OAuth2 authentication failed - no valid tokens received", none⟩,
            phaseEvents PhaseName.oauth2Login t)
        else
          (⟨true, [], "OAuth2 authentication successful", some tk⟩,
            phaseEvents PhaseName.oauth2Login t)
    | (t, Except.ok none) =>
        (⟨false, [], "OAuth2 authentication failed - no valid tokens received", none⟩,
          phaseEvents PhaseName.oauth2Login t)
  else
    (⟨false, [],
        "Missing required OAuth2 fields: " ++ String.intercalate ", " (oauth2MissingFields req),
        none⟩, [])

/-- Mirrors `HybridBaseStrategy.authenticate` (src/auth/base.py lines
369-410): the mode string is converted through `AuthMethod` (an empty
string selects the default `HYBRID`, an unknown one raises and is caught
by the except branch); OAuth2 is attempted once for modes `oauth2` and
`hybrid`, with a single fallback to the password tail in `hybrid` mode;
the hybrid password tail has no token-extraction step. -/
def hybridAuthenticate {P : Type} (s : Strategy P) (page : P) (req : LoginRequest) :
    AuthResult × List Ev :=
  match (if req.authMode.isEmpty then some AuthMethod.hybrid
         else authMethodOfString req.authMode) with
  | none =>
      (⟨false, [],
          "Hybrid authentication error: " ++ req.authMode ++ " is not a valid AuthMethod",
          none⟩, [])
  | some m =>
    if m = AuthMethod.oauth2 ∨ m = AuthMethod.hybrid then
      match s.oauth2Login page req with
      | (t, Except.error e) =>
          (⟨false, [], "Hybrid authentication error: " ++ e, none⟩,
            phaseEvents PhaseName.oauth2Login t)
      | (t, Except.ok (some tok)) =>
          (⟨true, [], "OAuth2 authentication successful", some tok⟩,
            phaseEvents PhaseName.oauth2Login t)
      | (t, Except.ok none) =>
        if m = AuthMethod.oauth2 then
          (⟨false, [], "OAuth2 authentication failed", none⟩,
            phaseEvents PhaseName.oauth2Login t)
        else
          passwordPhases s page req "Hybrid authentication error: "
            "Password authentication successful" false (phaseEvents PhaseName.oauth2Login t)
    else
      passwordPhases s page req "Hybrid authentication error: "
        "Password authentication successful" false []

/-- `SlackAuthStrategy` (src/auth/providers/slack.py) overrides only
`provider`, `login`, `is_success` and `extract_cookies` (plus private
helpers used inside `login`); `handle_captcha`, `handle_2fa`,
`oauth2_login` and `extract_oauth_tokens` are the inherited
`AuthStrategy` defaults.  The page-driving bodies of the overridden
methods are opaque here and passed in as parameters. -/
def slackStrategy {P : Type} (loginImpl : P → LoginRequest → PhaseOut Unit)
    (isSuccessImpl : P → PhaseOut Bool)
    (extractCookiesImpl : P → PhaseOut (List SessionCookie)) : Strategy P :=
  { login := loginImpl
    oauth2Login := defaultOauth2Login
    handleCaptcha := defaultHandleCaptcha
    handle2fa := defaultHandle2fa
    isSuccess := isSuccessImpl
    extractCookies := extractCookiesImpl
    extractOauthTokens := defaultExtractOauthTokens }

/-- Browser substrate providers (src/browser/factory.py
`BrowserProviderType`): the managed Browserbase substrate and the
locally launched one. -/
inductive BrowserProviderType
  | browserbase
  | localBrowser
deriving DecidableEq

/-- Mirrors `BrowserManager.get_page` (src/browser/manager.py lines
40-112).  Acquisition-and-first-use of a page through a provider is
abstracted as `acq`, a function of the provider type and the
`captcha_solving` flag; the fallback call passes `captcha_solving =
false` exactly as the source does.  When no provider type is given, the
configured `settings.browser_provider` selects it.  Returns the outcome
the caller observes together with the list of providers attempted, in
order: a failing Browserbase acquisition falls back exactly once to the
local provider, a failing local acquisition re-raises with no further
fallback. -/
def getPage {P : Type} (settingsBrowserProvider : String)
    (providerType : Option BrowserProviderType) (captchaSolving : Bool)
    (acq : BrowserProviderType → Bool → Except PyErr P) :
    Except PyErr P × List BrowserProviderType :=
  let pt := match providerType with
    | some p => p
    | none =>
        if settingsBrowserProvider = "browserbase" then BrowserProviderType.browserbase
        else BrowserProviderType.localBrowser
  match acq pt captchaSolving with
  | Except.ok page => (Except.ok page, [pt])
  | Except.error e =>
    match pt with
    | BrowserProviderType.browserbase =>
      match acq BrowserProviderType.localBrowser false with
      | Except.ok page =>
          (Except.ok page, [BrowserProviderType.browserbase, BrowserProviderType.localBrowser])
      | Except.error e2 =>
          (Except.error e2, [BrowserProviderType.browserbase, BrowserProviderType.localBrowser])
    | BrowserProviderType.localBrowser => (Except.error e, [BrowserProviderType.localBrowser])

/-- Bounded absence-polling loop: tick `i` sleeps one interval and then
runs the presence probe; the loop returns success the moment the probe
no longer detects the prompt, and failure when `limit` ticks are
exhausted.  Returns the outcome and the number of ticks executed.
`probe i = true` means the prompt is still detected at tick `i`. -/
def pollAbsence (probe : Nat → Bool) (i limit : Nat) : Bool × Nat :=
  if h : i < limit then
    if probe i then pollAbsence probe (i + 1) limit else (true, i + 1)
  else
    (false, limit)
termination_by limit - i

/-- Mirrors `ManualCaptchaSolver.solve` (src/auth/captcha/solvers/
manual_solver.py lines 55-78): up to 120 one-second ticks, each
re-running the `can_handle` presence probe, succeeding at the first
tick at which the CAPTCHA is no longer detected. -/
def manualCaptchaSolve (probe : Nat → Bool) : Bool × Nat :=
  pollAbsence probe 0 120

/-- Mirrors `ManualTwoFAHandler.handle_2fa` (src/auth/twofa/
manual_handler.py lines 68-94): a pre-check (probe invocation 0) before
the loop returns success with zero ticks when no 2FA prompt is present;
otherwise up to 120 ticks consuming probe invocations 1, 2, ... -/
def manualTwoFAHandle (probe : Nat → Bool) : Bool × Nat :=
  if probe 0 then pollAbsence (fun i => probe (i + 1)) 0 120 else (true, 0)

/-- Mirrors `CaptchaSolver.wait_for_captcha_completion`
(src/auth/captcha/base.py lines 76-94) with its `timeout` parameter
(default 30): one probe per tick, success at the first absent tick. -/
def waitForCaptchaCompletion (probe : Nat → Bool) (timeout : Nat) : Bool × Nat :=
  pollAbsence probe 0 timeout

/-- Form body of the token-exchange POST, mirroring the `data` dict of
`exchange_slack_code_for_token` (src/auth/oauth_helper.py lines 30-35),
in insertion order. -/
def exchangeRequestData (clientId clientSecret redirectUri code : String) :
    List (String × String) :=
  [("client_id", clientId), ("client_secret", clientSecret), ("code", code),
    ("redirect_uri", redirectUri)]

/-- Headers of the token-exchange POST (src/auth/oauth_helper.py lines
44-48). -/
def exchangeRequestHeaders : List (String × String) :=
  [("Accept", "application/json"),
    ("Content-Type", "application/x-www-form-urlencoded"),
    ("User-Agent", "Cybernetika-Auth/1.0")]

/-- Parsed JSON body of the Slack token endpoint response, restricted
to the fields the code reads and the token fields it carries. -/
structure SlackTokenResponse where
  ok : Option Bool := none
  error : Option String := none
  accessToken : Option String := none
  refreshToken : Option String := none
  tokenType : Option String := none
  expiresIn : Option Int := none
  scope : Option String := none
  teamId : Option String := none
deriving DecidableEq

/-- Outcome of the single back-channel POST: a timeout or a response
with a status code and a parsed JSON body. -/
inductive HttpOutcome
  | timeout
  | response (status : Nat) (body : SlackTokenResponse)

/-- Mirrors `exchange_slack_code_for_token` (src/auth/oauth_helper.py
lines 18-68): empty parameters raise before the single POST;
`raise_for_status` turns any non-2xx status into an error; a falsy `ok`
flag or a falsy `access_token` in the body is an error; otherwise the
parsed body is returned.  Every error is a `TokenExchangeError` and the
POST is never retried (the model consumes exactly one `HttpOutcome`). -/
def exchangeSlackCodeForToken (clientId clientSecret redirectUri code : String)
    (timeoutSecs : Nat) (out : HttpOutcome) : Except String SlackTokenResponse :=
  if clientId = "" ∨ clientSecret = "" ∨ redirectUri = "" ∨ code = "" then
    Except.error "Missing required parameters for token exchange"
  else
    match out with
    | HttpOutcome.timeout =>
        Except.error ("Slack token exchange timed out after " ++ toString timeoutSecs ++ "s")
    | HttpOutcome.response status body =>
      if ¬(200 ≤ status ∧ status < 300) then
        Except.error ("HTTP error " ++ toString status)
      else if ¬truthyOptBool body.ok then
        Except.error ("Slack token exchange failed: " ++ body.error.getD "Unknown error")
      else if optFalsy body.accessToken then
        Except.error "No access token in Slack response"
      else
        Except.ok body

/-- Modelled from the spec: no code under src constructs `OAuthTokens`
from a token-exchange response (`exchange_slack_code_for_token` has no
caller in src, and no provider strategy builds `OAuthTokens`), so the
acquisition step is taken from the spec, section 4.4: "Exchange the
code for tokens ... Compute absolute token expiry once at receipt time
if a duration was returned."  `issuedAt` is the acquisition instant in
seconds; the absolute expiry is issuance time plus the returned
duration, set here and nowhere else. -/
def tokensFromExchange (issuedAt : Int) (body : SlackTokenResponse) : OAuthTokens :=
  { accessToken := body.accessToken
    refreshToken := body.refreshToken
    tokenType := body.tokenType
    expiresIn := body.expiresIn
    expiresAt := body.expiresIn.map (fun d => issuedAt + d)
    scope := body.scope
    teamId := body.teamId }

/-- Authentication session (src/models.py `AuthSession`). -/
structure AuthSession where
  sessionId : String
  provider : AuthProvider
  userEmail : String
  cookies : List SessionCookie
  oauthTokens : Option OAuthTokens := none
  createdAt : Int
  expiresAt : Int
  lastUsed : Option Int := none
  isActive : Bool := true
deriving DecidableEq

/-- Mirrors the success branch of the login endpoint (src/main.py lines
77-113): the stored `AuthSession` carries the tokens returned by
`authenticate` unchanged (the endpoint only reads token fields into the
response and never writes any); the session-level expiry is one hour
from now and is unrelated to the token expiry. -/
def mkAuthSessionOnSuccess (sessionId : String) (req : LoginRequest) (now : Int)
    (cookies : List SessionCookie) (tokens : Option OAuthTokens) : AuthSession :=
  { sessionId := sessionId
    provider := req.provider
    userEmail := req.email
    cookies := cookies
    oauthTokens := tokens
    createdAt := now
    expiresAt := now + 3600
    lastUsed := some now
    isActive := true }

/-- Entry of a solver/handler chain: the registry name and the static
priority its constructor sets. -/
structure ChainEntry where
  name : String
  priority : Int
deriving DecidableEq

/-- Stable descending insertion by priority, modelling the stable
`sorted(..., key=priority, reverse=True)` used by both factories:
an entry is placed before the first entry of priority not greater than
its own, so earlier entries win ties. -/
def insertByPriorityDesc (x : ChainEntry) : List ChainEntry → List ChainEntry
  | [] => [x]
  | y :: ys => if y.priority ≤ x.priority then x :: y :: ys else y :: insertByPriorityDesc x ys

/-- Stable descending sort by priority (see `insertByPriorityDesc`). -/
def sortByPriorityDesc (l : List ChainEntry) : List ChainEntry :=
  l.foldr insertByPriorityDesc []

/-- Registry of `CaptchaSolverFactory` (src/auth/captcha/factory.py)
with the priorities set by each solver constructor: Browserbase 100,
manual 10, noop 0. -/
def captchaSolverPriority : String → Option Int
  | "browserbase" => some 100
  | "manual" => some 10
  | "noop" => some 0
  | _ => none

/-- Registry of `TwoFAHandlerFactory` (src/auth/twofa/factory.py) with
the priorities set by each handler constructor: pyotp 100, manual 10. -/
def twofaHandlerPriority : String → Option Int
  | "pyotp" => some 100
  | "manual" => some 10
  | _ => none

/-- Mirrors `CaptchaSolverFactory.create_solver_chain`
(src/auth/captcha/factory.py lines 34-63): unknown names are dropped,
the rest instantiated and stably sorted descending by priority. -/
def createSolverChain (preferred : List String) : List ChainEntry :=
  sortByPriorityDesc
    (preferred.filterMap fun n => (captchaSolverPriority n).map (ChainEntry.mk n))

/-- Mirrors `TwoFAHandlerFactory.create_handler_chain`
(src/auth/twofa/factory.py lines 31-60). -/
def createHandlerChain (preferred : List String) : List ChainEntry :=
  sortByPriorityDesc
    (preferred.filterMap fun n => (twofaHandlerPriority n).map (ChainEntry.mk n))

/-- Trivial stand-ins for the opaque page-driving bodies of the three
overridden Slack methods, on the unit page type, used to evaluate the
flows at concrete inputs. -/
def trivialLoginImpl : Unit → LoginRequest → PhaseOut Unit :=
  fun _ _ => ([], Except.ok ())

/-- Trivial `is_success` body for concrete evaluations. -/
def trivialIsSuccessImpl : Unit → PhaseOut Bool :=
  fun _ => ([], Except.ok true)

/-- Trivial `extract_cookies` body for concrete evaluations. -/
def trivialExtractCookiesImpl : Unit → PhaseOut (List SessionCookie) :=
  fun _ => ([], Except.ok [{ name := "d-session", value := "v", domain := "slack.com" }])

/-- The Slack strategy on the unit page type with trivial page-driving
bodies. -/
def slackUnitStrategy : Strategy Unit :=
  slackStrategy trivialLoginImpl trivialIsSuccessImpl trivialExtractCookiesImpl

/-- Concrete oauth2-mode request with no client id and no redirect
target configured. -/
def oauthReqNoClient : LoginRequest :=
  { provider := AuthProvider.slack, email := "user@example.com", password := "pw",
    authMode := "oauth2" }

/-- Concrete password-mode request. -/
def pwdReq : LoginRequest :=
  { provider := AuthProvider.slack, email := "user@example.com", password := "pw" }

/-- Concrete hybrid-mode request. -/
def hybridReq : LoginRequest :=
  { provider := AuthProvider.slack, email := "user@example.com", password := "pw",
    authMode := "hybrid" }

/-- Strategy whose password login raises, for exercising the catch-all
branch at a concrete input. -/
def errLoginStrategy : Strategy Unit :=
  { login := fun _ _ => ([], Except.error "boom")
    oauth2Login := defaultOauth2Login
    handleCaptcha := defaultHandleCaptcha
    handle2fa := defaultHandle2fa
    isSuccess := trivialIsSuccessImpl
    extractCookies := trivialExtractCookiesImpl
    extractOauthTokens := defaultExtractOauthTokens }

/-- C9 counterexample: the claim says a LoginRequest can be constructed
with the password absent, but pydantic declares `password: str` with no
default, so constructing a request without a password is a validation
error even in oauth2 mode. -/
theorem claim9_counterexample :
    mkLoginRequest (some AuthProvider.slack) (some "user@example.com") none =
      Except.error "password: field required" := rfl

/-- C9 amended: the password field of LoginRequest is required for
every mode - construction without a password always fails, and supplying
provider, email and password always succeeds. -/
theorem claim9_amended :
    (∀ p e, ∃ err, mkLoginRequest p e none = Except.error err) ∧
    (∀ pv em pw, mkLoginRequest (some pv) (some em) (some pw) =
      Except.ok { provider := pv, email := em, password := pw }) := by
  refine ⟨fun p e => ?_, fun pv em pw => rfl⟩
  cases p <;> cases e <;> exact ⟨_, rfl⟩

/-- C6 counterexample: the token-exchange body at a concrete input
carries exactly client_id, client_secret, code and redirect_uri - there
is no grant_type parameter, contrary to the claim. -/
theorem claim6_counterexample :
    ((exchangeRequestData "cid" "secret" "https://app.example.com/callback" "authcode").map
        Prod.fst).contains "grant_type" = false ∧
    (exchangeRequestData "cid" "secret" "https://app.example.com/callback" "authcode").map
        Prod.fst = ["client_id", "client_secret", "code", "redirect_uri"] := by
  constructor <;> rfl

/-- C6 amended: the token-exchange POST body is form-urlencoded and
contains the code, redirect_uri, client_id and client_secret
parameters, but no grant_type parameter (the Slack oauth.v2.access
endpoint does not take one). -/
theorem claim6_amended (cid cs ru code : String) :
    exchangeRequestData cid cs ru code =
      [("client_id", cid), ("client_secret", cs), ("code", code), ("redirect_uri", ru)] ∧
    ((exchangeRequestData cid cs ru code).map Prod.fst).contains "grant_type" = false ∧
    ("Content-Type", "application/x-www-form-urlencoded") ∈ exchangeRequestHeaders := by
  refine ⟨rfl, rfl, ?_⟩
  simp [exchangeRequestHeaders]

/-- C3: when the exchange response carries a duration, the absolute
expiry of the resulting tokens is the issuance instant plus that
duration, computed at acquisition time; the login endpoint stores the
tokens unchanged, never recomputing any field. -/
theorem claim3_expiry_once (issuedAt d : Int) (body : SlackTokenResponse)
    (h : body.expiresIn = some d) :
    (tokensFromExchange issuedAt body).expiresAt = some (issuedAt + d) ∧
    (tokensFromExchange issuedAt body).expiresIn = some d ∧
    (∀ sid req now cookies,
      (mkAuthSessionOnSuccess sid req now cookies
          (some (tokensFromExchange issuedAt body))).oauthTokens =
        some (tokensFromExchange issuedAt body)) := by
  refine ⟨?_, ?_, fun _ _ _ _ => rfl⟩ <;> simp [tokensFromExchange, h]

/-- Concrete exchange body of Scenario B: access_token "abc",
expires_in 3600. -/
def exchangeBodyB : SlackTokenResponse :=
  { ok := some true, accessToken := some "abc", expiresIn := some 3600 }

/-- C3 witness at the Scenario B input. -/
theorem claim3_witness :
    (tokensFromExchange 1000 exchangeBodyB).expiresAt = some (1000 + 3600) ∧
    (tokensFromExchange 1000 exchangeBodyB).expiresIn = some 3600 := by
  have h := claim3_expiry_once 1000 3600 exchangeBodyB rfl
  exact ⟨h.1, h.2.1⟩

/-- C5: a failing Browserbase acquisition falls back exactly once to
the local provider - the caller then observes exactly the local
outcome; if the local fallback also fails its error propagates; a
failing local-preferred acquisition propagates with no fallback; and a
successful preferred acquisition never falls back at all. -/
theorem claim5_substrate_fallback {P : Type}
    (acq : BrowserProviderType → Bool → Except PyErr P) (sp : String) (flag : Bool)
    (e : PyErr) :
    (acq BrowserProviderType.browserbase flag = Except.error e →
      getPage sp (some BrowserProviderType.browserbase) flag acq =
        (acq BrowserProviderType.localBrowser false,
          [BrowserProviderType.browserbase, BrowserProviderType.localBrowser])) ∧
    (∀ e2, acq BrowserProviderType.browserbase flag = Except.error e →
      acq BrowserProviderType.localBrowser false = Except.error e2 →
      getPage sp (some BrowserProviderType.browserbase) flag acq =
        (Except.error e2, [BrowserProviderType.browserbase, BrowserProviderType.localBrowser])) ∧
    (acq BrowserProviderType.localBrowser flag = Except.error e →
      getPage sp (some BrowserProviderType.localBrowser) flag acq =
        (Except.error e, [BrowserProviderType.localBrowser])) ∧
    (∀ page, acq BrowserProviderType.browserbase flag = Except.ok page →
      getPage sp (some BrowserProviderType.browserbase) flag acq =
        (Except.ok page, [BrowserProviderType.browserbase])) := by
  refine ⟨fun h => ?_, fun e2 h h2 => ?_, fun h => ?_, fun page h => ?_⟩
  · unfold getPage
    dsimp only
    rw [h]
    cases hl : acq BrowserProviderType.localBrowser false <;> simp [hl]
  · unfold getPage
    dsimp only
    rw [h, h2]
  · unfold getPage
    dsimp only
    rw [h]
  · unfold getPage
    dsimp only
    rw [h]

/-- Acquisition oracle that always throws, for the double-failure case. -/
def acqAlwaysFails : BrowserProviderType → Bool → Except PyErr Unit :=
  fun _ _ => Except.error "boom"

/-- C5 witness: with both substrates throwing, the manager attempts
Browserbase then local exactly once each and the local error
propagates. -/
theorem claim5_witness :
    getPage "browserbase" (some BrowserProviderType.browserbase) true acqAlwaysFails =
      (Except.error "boom",
        [BrowserProviderType.browserbase, BrowserProviderType.localBrowser]) :=
  (claim5_substrate_fallback acqAlwaysFails "browserbase" true "boom").2.1 "boom" rfl rfl

/-- Helper: the absence-polling loop started at tick `s` succeeds with
tick count `k + 1` when the probe first reports absence at tick `k`. -/
theorem pollAbsence_reaches (probe : Nat → Bool) (limit k : Nat) :
    ∀ s, s ≤ k → k < limit → probe k = false →
      (∀ j, s ≤ j → j < k → probe j = true) →
      pollAbsence probe s limit = (true, k + 1) := by
  have H : ∀ n s, k - s = n → s ≤ k → k < limit → probe k = false →
      (∀ j, s ≤ j → j < k → probe j = true) →
      pollAbsence probe s limit = (true, k + 1) := by
    intro n
    induction n with
    | zero =>
      intro s hd hs hk habs hpres
      have hsk : s = k := by omega
      subst hsk
      unfold pollAbsence
      rw [dif_pos hk]
      simp [habs]
    | succ n ih =>
      intro s hd hs hk habs hpres
      have hsk : s < k := by omega
      unfold pollAbsence
      rw [dif_pos (by omega : s < limit)]
      rw [hpres s (Nat.le_refl s) hsk]
      simp only [if_pos]
      exact ih (s + 1) (by omega) (by omega) hk habs (fun j h1 h2 => hpres j (by omega) h2)
  exact fun s hs hk habs hpres => H (k - s) s rfl hs hk habs hpres

/-- C8: at the first poll tick at which the presence probe no longer
detects the prompt, each bounded loop - the manual CAPTCHA solver, the
manual 2FA handler, and wait_for_captcha_completion - reports success
immediately, executing no further ticks (the code has no separate
"solved" signal at all: probe absence is the only success condition). -/
theorem claim8_absence_is_success (probe : Nat → Bool) (k n : Nat)
    (hk : k < 120) (hkn : k < n) (habs : probe k = false)
    (hpres : ∀ j, j < k → probe j = true) :
    manualCaptchaSolve probe = (true, k + 1) ∧
    waitForCaptchaCompletion probe n = (true, k + 1) ∧
    manualTwoFAHandle probe = (true, k) := by
  refine ⟨?_, ?_, ?_⟩
  · exact pollAbsence_reaches probe 120 k 0 (Nat.zero_le k) hk habs
      (fun j _ hj => hpres j hj)
  · exact pollAbsence_reaches probe n k 0 (Nat.zero_le k) hkn habs
      (fun j _ hj => hpres j hj)
  · by_cases h0 : k = 0
    · subst h0
      simp [manualTwoFAHandle, habs]
    · have hp0 : probe 0 = true := hpres 0 (by omega)
      unfold manualTwoFAHandle
      rw [hp0]
      simp only [if_pos]
      have hk1 : k - 1 < 120 := by omega
      have hr := pollAbsence_reaches (fun i => probe (i + 1)) 120 (k - 1) 0
        (Nat.zero_le _) hk1
        (by
          show probe (k - 1 + 1) = false
          rw [Nat.sub_add_cancel (by omega : 1 ≤ k)]
          exact habs)
        (fun j _ hj => hpres (j + 1) (by omega))
      rw [hr, Nat.sub_add_cancel (by omega : 1 ≤ k)]

/-- C8 witness: a prompt present for two ticks and gone at tick 2. -/
theorem claim8_witness :
    manualCaptchaSolve (fun i => decide (i < 2)) = (true, 3) ∧
    waitForCaptchaCompletion (fun i => decide (i < 2)) 30 = (true, 3) ∧
    manualTwoFAHandle (fun i => decide (i < 2)) = (true, 2) :=
  claim8_absence_is_success (fun i => decide (i < 2)) 2 30 (by omega) (by omega)
    (by decide) (by decide)

/-- C7: once the single POST has produced a response, the token
exchange raises a TokenExchangeError exactly when the status is
non-2xx, the provider `ok` flag is absent or falsy, or the
`access_token` is missing from the body; otherwise it returns the
parsed body.  The parameters of the exchange are assumed present
(the code raises before the POST when any is empty). -/
theorem claim7_exchange_fatal_iff (cid cs ru code : String) (status : Nat)
    (body : SlackTokenResponse)
    (h1 : cid ≠ "") (h2 : cs ≠ "") (h3 : ru ≠ "") (h4 : code ≠ "") :
    ((∃ e, exchangeSlackCodeForToken cid cs ru code 30 (HttpOutcome.response status body) =
        Except.error e) ↔
      (¬(200 ≤ status ∧ status < 300) ∨ truthyOptBool body.ok = false ∨
        optFalsy body.accessToken = true)) ∧
    ((200 ≤ status ∧ status < 300) → truthyOptBool body.ok = true →
      optFalsy body.accessToken = false →
      exchangeSlackCodeForToken cid cs ru code 30 (HttpOutcome.response status body) =
        Except.ok body) := by
  have hp : ¬(cid = "" ∨ cs = "" ∨ ru = "" ∨ code = "") := by tauto
  unfold exchangeSlackCodeForToken
  rw [if_neg hp]
  constructor
  · by_cases hst : 200 ≤ status ∧ status < 300
    · by_cases hok : truthyOptBool body.ok = true
      · by_cases hat : optFalsy body.accessToken = true
        · simp [hst, hok, hat]
        · simp [hst, hok, hat]
      · simp [hst, hok]
    · simp [hst]
  · intro hst hok hat
    simp [hst, hok, hat]

/-- C7 witness: all parameters present, a 200 response whose body has
ok=true and an access token is returned parsed; and the same input with
status 500 is an error. -/
theorem claim7_witness :
    exchangeSlackCodeForToken "id" "sec" "https://cb" "code" 30
        (HttpOutcome.response 200 exchangeBodyB) = Except.ok exchangeBodyB ∧
    (∃ e, exchangeSlackCodeForToken "id" "sec" "https://cb" "code" 30
        (HttpOutcome.response 500 exchangeBodyB) = Except.error e) := by
  constructor
  · exact (claim7_exchange_fatal_iff "id" "sec" "https://cb" "code" 200 exchangeBodyB
      (by decide) (by decide) (by decide) (by decide)).2 (by omega) rfl rfl
  · exact (claim7_exchange_fatal_iff "id" "sec" "https://cb" "code" 500 exchangeBodyB
      (by decide) (by decide) (by decide) (by decide)).1.mpr (Or.inl (by omega))

/-- Helper: every failure result of the shared password tail carries an
empty cookie list and no tokens. -/
theorem passwordPhases_failure_shape {P : Type} (s : Strategy P) (page : P)
    (req : LoginRequest) (pre sm : String) (ex : Bool) (tr0 : List Ev) :
    (passwordPhases s page req pre sm ex tr0).1.success = false →
    (passwordPhases s page req pre sm ex tr0).1.cookies = [] ∧
    (passwordPhases s page req pre sm ex tr0).1.tokens = none := by
  unfold passwordPhases
  repeat' split
  all_goals intro h
  all_goals first
    | exact ⟨rfl, rfl⟩
    | simp at h

/-- C2: for every strategy, page and request - including strategies
whose phases raise - both the generic and the hybrid authenticate
flows are total functions into the structured result tuple, every
failure result carries an empty cookie list and no tokens, and a raised
phase exception is returned as a structured failure message rather
than propagated (shown explicitly for a raising login phase). -/
theorem claim2_structured_failures {P : Type} (s : Strategy P) (page : P)
    (req : LoginRequest) :
    ((baseAuthenticate s page req).1.success = false →
      (baseAuthenticate s page req).1.cookies = [] ∧
      (baseAuthenticate s page req).1.tokens = none) ∧
    ((hybridAuthenticate s page req).1.success = false →
      (hybridAuthenticate s page req).1.cookies = [] ∧
      (hybridAuthenticate s page req).1.tokens = none) ∧
    (∀ t e, req.authMode = "password" → s.login page req = (t, Except.error e) →
      (baseAuthenticate s page req).1 = ⟨false, [], "Authentication error: " ++ e, none⟩) := by
  refine ⟨?_, ?_, ?_⟩
  · unfold baseAuthenticate
    repeat' split
    all_goals first
      | exact passwordPhases_failure_shape s page req _ _ _ _
      | (intro h; first | exact ⟨rfl, rfl⟩ | simp at h)
  · unfold hybridAuthenticate
    repeat' split
    all_goals first
      | exact passwordPhases_failure_shape s page req _ _ _ _
      | (intro h; first | exact ⟨rfl, rfl⟩ | simp at h)
  · intro t e hmode hlogin
    unfold baseAuthenticate
    rw [hmode]
    rw [if_neg (by decide : ¬("password" : String) = "oauth2")]
    rw [if_neg (by decide : ¬("password" : String) = "hybrid")]
    unfold passwordPhases
    rw [hlogin]

/-- C2 witness: a login phase that raises "boom" yields the structured
failure with empty cookies and no tokens. -/
theorem claim2_witness :
    (baseAuthenticate errLoginStrategy () pwdReq).1.cookies = [] ∧
    (baseAuthenticate errLoginStrategy () pwdReq).1.tokens = none ∧
    (baseAuthenticate errLoginStrategy () pwdReq).1 =
      ⟨false, [], "Authentication error: boom", none⟩ := by
  have h := claim2_structured_failures errLoginStrategy () pwdReq
  exact ⟨(h.1 rfl).1, (h.1 rfl).2, h.2.2 [] "boom" rfl rfl⟩

/-- Helper: the number of `Ev.call q` events contributed by a single
phase call. -/
theorem count_call_phaseEvents (q p : PhaseName) (t : List MEv) :
    (phaseEvents p t).count (Ev.call q) = if p = q then 1 else 0 := by
  unfold phaseEvents
  rw [List.count_cons]
  have hz : (t.map Ev.m).count (Ev.call q) = 0 := by
    rw [List.count_eq_zero]
    simp
  rw [hz]
  simp [beq_iff_eq]

/-- Helper: the shared password tail never calls `oauth2_login` - the
count of such calls in its trace is exactly that of the prefix trace. -/
theorem passwordPhases_oauth2_count {P : Type} (s : Strategy P) (page : P)
    (req : LoginRequest) (pre sm : String) (ex : Bool) (tr0 : List Ev) :
    (passwordPhases s page req pre sm ex tr0).2.count (Ev.call PhaseName.oauth2Login) =
      tr0.count (Ev.call PhaseName.oauth2Login) := by
  unfold passwordPhases
  repeat' split
  all_goals simp [List.count_append, count_call_phaseEvents]

/-- Helper: the shared password tail always calls the password login
phase. -/
theorem passwordPhases_calls_login {P : Type} (s : Strategy P) (page : P)
    (req : LoginRequest) (pre sm : String) (ex : Bool) (tr0 : List Ev) :
    Ev.call PhaseName.login ∈ (passwordPhases s page req pre sm ex tr0).2 := by
  unfold passwordPhases
  repeat' split
  all_goals simp [phaseEvents]

/-- C4: a single authenticate call invokes the OAuth2 login at most
once, in both the generic and the hybrid flow; and in hybrid mode, when
the single OAuth2 attempt comes back empty, the flow falls through to
the password login phase with the OAuth2 call count still exactly one. -/
theorem claim4_oauth2_at_most_once {P : Type} (s : Strategy P) (page : P)
    (req : LoginRequest) :
    (baseAuthenticate s page req).2.count (Ev.call PhaseName.oauth2Login) ≤ 1 ∧
    (hybridAuthenticate s page req).2.count (Ev.call PhaseName.oauth2Login) ≤ 1 ∧
    (∀ t, req.authMode = "hybrid" → s.oauth2Login page req = (t, Except.ok none) →
      (baseAuthenticate s page req).2.count (Ev.call PhaseName.oauth2Login) = 1 ∧
      Ev.call PhaseName.login ∈ (baseAuthenticate s page req).2 ∧
      (hybridAuthenticate s page req).2.count (Ev.call PhaseName.oauth2Login) = 1 ∧
      Ev.call PhaseName.login ∈ (hybridAuthenticate s page req).2) := by
  refine ⟨?_, ?_, ?_⟩
  · unfold baseAuthenticate
    repeat' split
    all_goals
      simp [passwordPhases_oauth2_count, count_call_phaseEvents, List.count_nil]
  · unfold hybridAuthenticate
    repeat' split
    all_goals
      simp [passwordPhases_oauth2_count, count_call_phaseEvents, List.count_nil]
  · intro t hmode hoauth
    have hbase :
        baseAuthenticate s page req =
          passwordPhases s page req "Authentication error: " "Login successful" true
            (phaseEvents PhaseName.oauth2Login t) := by
      unfold baseAuthenticate
      rw [hmode]
      rw [if_neg (by decide : ¬("hybrid" : String) = "oauth2")]
      rw [if_pos rfl]
      rw [hoauth]
    have hhyb :
        hybridAuthenticate s page req =
          passwordPhases s page req "Hybrid authentication error: "
            "Password authentication successful" false
            (phaseEvents PhaseName.oauth2Login t) := by
      unfold hybridAuthenticate
      rw [hmode]
      rw [(by decide :
        (if ("hybrid" : String).isEmpty = true then some AuthMethod.hybrid
          else authMethodOfString "hybrid") = some AuthMethod.hybrid)]
      dsimp only
      rw [if_pos (Or.inr rfl)]
      rw [hoauth]
      dsimp only
      rw [if_neg (by decide : ¬AuthMethod.hybrid = AuthMethod.oauth2)]
    rw [hbase, hhyb]
    refine ⟨?_, passwordPhases_calls_login s page req _ _ _ _, ?_,
      passwordPhases_calls_login s page req _ _ _ _⟩ <;>
      simp [passwordPhases_oauth2_count, count_call_phaseEvents]

/-- C4 witness: the Slack strategy (whose oauth2_login is the default
returning none) in hybrid mode calls OAuth2 exactly once in both flows
and falls through to the password login. -/
theorem claim4_witness :
    (baseAuthenticate slackUnitStrategy () hybridReq).2.count
        (Ev.call PhaseName.oauth2Login) = 1 ∧
    Ev.call PhaseName.login ∈ (baseAuthenticate slackUnitStrategy () hybridReq).2 ∧
    (hybridAuthenticate slackUnitStrategy () hybridReq).2.count
        (Ev.call PhaseName.oauth2Login) = 1 ∧
    Ev.call PhaseName.login ∈ (hybridAuthenticate slackUnitStrategy () hybridReq).2 :=
  (claim4_oauth2_at_most_once slackUnitStrategy () hybridReq).2.2 [] rfl rfl

/-- C1 counterexample: for the registered Slack strategy (whose
authenticate is the generic `AuthStrategy.authenticate`), an oauth2-mode
request missing both the client id and the redirect target is not
validated at all: the OAuth2 flow phase is dispatched first (the trace
records its call) and the result is the generic "OAuth2 authentication
failed", whose message does not start with the configuration-failure
text "Missing required OAuth2 fields: " produced by the validating
flow. -/
theorem claim1_counterexample :
    baseAuthenticate slackUnitStrategy () oauthReqNoClient =
      (⟨false, [], "OAuth2 authentication failed", none⟩,
        [Ev.call PhaseName.oauth2Login]) ∧
    ("Missing required OAuth2 fields: ".data.isPrefixOf
        "OAuth2 authentication failed".data) = false := by
  constructor
  · rfl
  · decide

/-- C1 amended: only `OAuth2BaseStrategy.authenticate` enforces the
mode invariant - for an oauth2-mode request with a missing (absent or
empty) client id or redirect target it returns the configuration
failure "Missing required OAuth2 fields: ..." with an empty trace, i.e.
before the OAuth2 flow or any browser interaction is attempted; the
generic `AuthStrategy.authenticate` used by the registered Slack
strategy performs no such validation. -/
theorem claim1_amended {P : Type} (s : Strategy P) (page : P) (req : LoginRequest)
    (_hmode : req.authMode = "oauth2")
    (hmiss : optFalsy req.clientId = true ∨ optFalsy req.redirectUri = true) :
    (oauth2BaseAuthenticate s page req).1.success = false ∧
    (∃ rest, (oauth2BaseAuthenticate s page req).1.message =
      "Missing required OAuth2 fields: " ++ rest) ∧
    (oauth2BaseAuthenticate s page req).2 = [] := by
  have h : (oauth2MissingFields req).isEmpty = false := by
    unfold oauth2MissingFields
    cases hc1 : optFalsy req.clientId <;> cases hc2 : optFalsy req.clientSecret <;>
      rcases hmiss with h | h <;> simp_all
  unfold oauth2BaseAuthenticate
  rw [if_neg (by rw [h]; exact fun hf => Bool.false_ne_true hf)]
  exact ⟨rfl, ⟨_, rfl⟩, rfl⟩

/-- C1 witness: the validating flow at the concrete no-client request
returns the configuration failure before any phase call. -/
theorem claim1_witness :
    (oauth2BaseAuthenticate slackUnitStrategy () oauthReqNoClient).1.success = false ∧
    (∃ rest, (oauth2BaseAuthenticate slackUnitStrategy () oauthReqNoClient).1.message =
      "Missing required OAuth2 fields: " ++ rest) ∧
    (oauth2BaseAuthenticate slackUnitStrategy () oauthReqNoClient).2 = [] :=
  claim1_amended slackUnitStrategy () oauthReqNoClient rfl (Or.inl rfl)

/-- C10: the CAPTCHA and 2FA phase methods the Slack strategy actually
uses are the inherited defaults, returning true unconditionally and
emitting no events - in particular never invoking any solver or
handler, even though the factories do build priority-ordered chains
(shown here for the configured preference lists); consequently the
orchestrated flow steps straight from the login phase through the
challenge and OTP phases to the success check, with no event in
between. -/
theorem claim10_slack_default_handlers {P : Type}
    (loginImpl : P → LoginRequest → PhaseOut Unit) (isSuccessImpl : P → PhaseOut Bool)
    (extractCookiesImpl : P → PhaseOut (List SessionCookie)) (page : P)
    (req : LoginRequest) :
    (slackStrategy loginImpl isSuccessImpl extractCookiesImpl).handleCaptcha page =
      ([], Except.ok true) ∧
    (slackStrategy loginImpl isSuccessImpl extractCookiesImpl).handle2fa page req =
      ([], Except.ok true) ∧
    createSolverChain ["browserbase", "manual"] =
      [{ name := "browserbase", priority := 100 }, { name := "manual", priority := 10 }] ∧
    createHandlerChain ["pyotp", "manual"] =
      [{ name := "pyotp", priority := 100 }, { name := "manual", priority := 10 }] ∧
    (∀ t1, req.authMode = "password" → loginImpl page req = (t1, Except.ok ()) →
      (phaseEvents PhaseName.login t1 ++
          [Ev.call PhaseName.handleCaptcha, Ev.call PhaseName.handle2fa,
            Ev.call PhaseName.isSuccess]) <+:
        (baseAuthenticate (slackStrategy loginImpl isSuccessImpl extractCookiesImpl)
            page req).2) := by
  refine ⟨rfl, rfl, rfl, rfl, ?_⟩
  intro t1 hmode hlogin
  unfold baseAuthenticate
  rw [hmode]
  rw [if_neg (by decide : ¬("password" : String) = "oauth2")]
  rw [if_neg (by decide : ¬("password" : String) = "hybrid")]
  unfold passwordPhases
  dsimp only [slackStrategy, defaultHandleCaptcha, defaultHandle2fa]
  rw [hlogin]
  repeat' split
  all_goals
    simp_all [phaseEvents, List.append_assoc, List.cons_prefix_cons,
      List.prefix_append_right_inj, List.nil_prefix, List.prefix_append]

/-- C10 witness: at the trivial page bodies and the concrete password
request, the trace steps from login through the (default, no-op)
challenge and OTP phases directly to the success check. -/
theorem claim10_witness :
    (phaseEvents PhaseName.login [] ++
        [Ev.call PhaseName.handleCaptcha, Ev.call PhaseName.handle2fa,
          Ev.call PhaseName.isSuccess]) <+:
      (baseAuthenticate slackUnitStrategy () pwdReq).2 :=
  (claim10_slack_default_handlers trivialLoginImpl trivialIsSuccessImpl
      trivialExtractCookiesImpl () pwdReq).2.2.2.2 [] rfl rfl
